import Mathlib

/-!
# ARMv7-M (alternate) port layer: `os/common/ports/ARMv7-M-ALT/chcore.c`

Shallow embedding of the port code and proofs about it.

* Machine words are `Nat`; casts to `uint32_t` are written `% 2 ^ 32`.
* Memory is byte addressed, `Nat → Nat`, addresses taken modulo `2 ^ 32`.
* Kernel and hardware state is one record, `kernel σ`, threaded explicitly
  through every operation; `σ` is the state of the scheduler collaborator.
* Every call into a collaborator (scheduler, lock, MPU, NVIC, halt) appends an
  `event` to `kernel.trace`, so that ordering properties can be stated.
-/

namespace ChibiOS

/-! ## Configuration and collaborators -/

/-- Interrupt numbers used by the port (`SVCall_IRQn`, `PendSV_IRQn`). -/
inductive IRQn where
  | SVCall_IRQn
  | PendSV_IRQn
  deriving DecidableEq, Repr

/-- Calls into collaborators, in program order. -/
inductive event where
  | chSysLock
  | chSysUnlock
  | chSchIsPreemptionRequired
  | chThdGetSelfX
  | chSchSelectFirst
  | mpuSetRegionAddress (region addr : Nat)
  | mpuConfigureRegion (region addr attribs : Nat)
  | mpuEnable (ctrl : Nat)
  | port_suspend
  | NVIC_SetPriorityGrouping (group : Nat)
  | NVIC_SetPriority (irq : IRQn) (priority : Nat)
  | set_PSP (value : Nat)
  | svc (n : Nat)
  | chSysHalt (tag : String)
  deriving DecidableEq, Repr

/-- Build-time configuration: the preprocessor switches and the constants that
`chcore.c` takes from `chcore.h`, CMSIS and `mpu.h`. All are parameters. -/
structure port_config where
  PORT_ENABLE_GUARD_PAGES : Bool
  PORT_USE_SYSCALL : Bool
  CORTEX_USE_FPU : Bool
  CORTEX_MODEL : Nat
  PORT_USE_GUARD_MPU_REGION : Nat
  CORTEX_PRIGROUP_INIT : Nat
  CORTEX_PRIORITY_SVCALL : Nat
  CORTEX_PRIORITY_PENDSV : Nat
  CoreDebug_DEMCR_TRCENA_Msk : Nat
  DWT_CTRL_CYCCNTENA_Msk : Nat
  MPU_RASR_ATTR_AP_NA_NA : Nat
  MPU_RASR_ATTR_NON_CACHEABLE : Nat
  MPU_RASR_SIZE_32 : Nat
  MPU_RASR_ENABLE : Nat
  MPU_CTRL_PRIVDEFENA : Nat
  /-- Address of the linker symbol `__main_thread_stack_base__`. -/
  main_thread_stack_base : Nat
  /-- Size of the Exception Frame, `sizeof (struct port_extctx)`. -/
  sizeof_extctx : Nat
  /-- Offset of the program counter, `offsetof (struct port_extctx, pc)`. -/
  off_pc : Nat
  /-- Offset of the status register, `offsetof (struct port_extctx, xpsr)`. -/
  off_xpsr : Nat
  /-- Offset of the FP status, `offsetof (struct port_extctx, fpscr)`, meaningful
  when the FPU is used. -/
  off_fpscr : Nat
  /-- Size of the Link Context, `sizeof (struct port_linkctx)`. -/
  sizeof_linkctx : Nat
  /-- Offset of the saved CONTROL, `offsetof (struct port_linkctx, control)`. -/
  off_control : Nat
  /-- Offset of the frame pointer, `offsetof (struct port_linkctx, ectxp)`. -/
  off_ectxp : Nat

/-- The scheduler collaborator, over its own state `σ`. Thread handles are
addresses (`thread_t *`). `wabase σ tp` reads `tp->wabase`. -/
structure scheduler (σ : Type) where
  chSchIsPreemptionRequired : σ → Bool
  chThdGetSelfX : σ → Nat
  chSchSelectFirst : σ → Nat × σ
  wabase : σ → Nat → Nat

/-- Kernel and hardware state seen by the port layer. -/
structure kernel (σ : Type) where
  /-- Scheduler state (ready list, current thread, thread objects). -/
  sch : σ
  /-- Kernel lock: `true` while the lock is held. -/
  locked : Bool
  /-- Process stack pointer. -/
  PSP : Nat
  CONTROL : Nat
  FPSCR : Nat
  /-- Byte-addressed memory. -/
  mem : Nat → Nat
  /-- Interrupts suspended by `port_suspend`. -/
  irq_suspended : Bool
  /-- Priority grouping programmed in the interrupt controller. -/
  prigroup : Nat
  /-- Priorities of the system handlers. -/
  priority : IRQn → Nat
  DEMCR : Nat
  DWT_LAR : Nat
  DWT_CTRL : Nat
  /-- Protection-region binding: region id to base address. -/
  mpu_rbar : Nat → Nat
  /-- Protection-region attributes and size: region id to descriptor. -/
  mpu_rasr : Nat → Nat
  /-- Protection unit control: `none` until the unit is enabled, then the
  policy it was enabled with. -/
  mpu_ctrl : Option Nat
  trace : List event

/-- How a `void` port function ends. -/
inductive outcome (σ : Type) where
  /-- Normal return to the caller. -/
  | returned (s : kernel σ)
  /-- The system was halted with a diagnostic tag. -/
  | halted (tag : String) (s : kernel σ)
  /-- Control was handed over by a supervisor call and never came back. -/
  | no_return (s : kernel σ)

/-- Record a collaborator call. -/
def emit {σ : Type} (e : event) (s : kernel σ) : kernel σ :=
  { s with trace := s.trace ++ [e] }

/-! ## Machine arithmetic and memory -/

/-- The cast `(uint32_t)x`. -/
def u32 (x : Nat) : Nat := x % 2 ^ 32

/-- Subtraction on `uint32_t`, wrapping around. -/
def sub32 (a b : Nat) : Nat := (a % 2 ^ 32 + 2 ^ 32 - b % 2 ^ 32) % 2 ^ 32

/-- Store one byte. -/
def mem_write8 (m : Nat → Nat) (a v : Nat) : Nat → Nat :=
  fun x => if x = a % 2 ^ 32 then v % 256 else m x

/-- Load one byte. -/
def mem_read8 (m : Nat → Nat) (a : Nat) : Nat := m (a % 2 ^ 32)

/-- The C library `memset (a, v, n)`: `n` bytes starting at `a` become `v`. -/
def memset (m : Nat → Nat) (a v : Nat) : Nat → (Nat → Nat)
  | 0 => m
  | n + 1 => mem_write8 (memset m a v n) (a + n) v

/-- Store a 32-bit word, little endian. -/
def store32 (m : Nat → Nat) (a v : Nat) : Nat → Nat :=
  mem_write8 (mem_write8 (mem_write8 (mem_write8 m a v) (a + 1) (v / 2 ^ 8))
    (a + 2) (v / 2 ^ 16)) (a + 3) (v / 2 ^ 24)

/-- Load a 32-bit word, little endian. -/
def load32 (m : Nat → Nat) (a : Nat) : Nat :=
  mem_read8 m a % 256 + 2 ^ 8 * (mem_read8 m (a + 1) % 256)
    + 2 ^ 16 * (mem_read8 m (a + 2) % 256) + 2 ^ 24 * (mem_read8 m (a + 3) % 256)

/-! ## Collaborator operations -/

/-- Modelled from the spec: `chSysLock` is missing from the sources; the spec
says it acquires the kernel lock, the single mutual-exclusion primitive. -/
def chSysLock {σ : Type} (s : kernel σ) : kernel σ :=
  emit event.chSysLock { s with locked := true }

/-- Modelled from the spec: `chSysUnlock` is missing from the sources; the spec
says it releases the kernel lock. -/
def chSysUnlock {σ : Type} (s : kernel σ) : kernel σ :=
  emit event.chSysUnlock { s with locked := false }

/-- The scheduler query "is preemption required", a pure read. -/
def chSchIsPreemptionRequired {σ : Type} (sch : scheduler σ) (s : kernel σ) :
    Bool × kernel σ :=
  (sch.chSchIsPreemptionRequired s.sch, emit event.chSchIsPreemptionRequired s)

/-- The currently running thread, a pure read. -/
def chThdGetSelfX {σ : Type} (sch : scheduler σ) (s : kernel σ) : Nat × kernel σ :=
  (sch.chThdGetSelfX s.sch, emit event.chThdGetSelfX s)

/-- The scheduler selects the first runnable thread and makes it current. -/
def chSchSelectFirst {σ : Type} (sch : scheduler σ) (s : kernel σ) : Nat × kernel σ :=
  ((sch.chSchSelectFirst s.sch).1,
    emit event.chSchSelectFirst { s with sch := (sch.chSchSelectFirst s.sch).2 })

/-- Modelled from the spec: `mpuSetRegionAddress` is missing from the sources;
the spec says it reprograms one protection-region descriptor's base address to
the argument, leaving size and attributes alone. -/
def mpuSetRegionAddress {σ : Type} (region addr : Nat) (s : kernel σ) : kernel σ :=
  emit (event.mpuSetRegionAddress region addr)
    { s with mpu_rbar := fun r => if r = region then addr else s.mpu_rbar r }

/-- Modelled from the spec: `mpuConfigureRegion` is missing from the sources;
the spec says it programs a region descriptor with a base and attributes. -/
def mpuConfigureRegion {σ : Type} (region addr attribs : Nat) (s : kernel σ) : kernel σ :=
  emit (event.mpuConfigureRegion region addr attribs)
    { s with
      mpu_rbar := fun r => if r = region then addr else s.mpu_rbar r
      mpu_rasr := fun r => if r = region then attribs else s.mpu_rasr r }

/-- Modelled from the spec: `mpuEnable` is missing from the sources; the spec
says it enables the protection unit as a whole with the given policy. -/
def mpuEnable {σ : Type} (ctrl : Nat) (s : kernel σ) : kernel σ :=
  emit (event.mpuEnable ctrl) { s with mpu_ctrl := some ctrl }

/-- Modelled from the spec: `port_suspend` is missing from the sources; the
spec says it suspends interrupts to a known baseline configuration. -/
def port_suspend {σ : Type} (s : kernel σ) : kernel σ :=
  emit event.port_suspend { s with irq_suspended := true }

/-- Modelled from the spec: `NVIC_SetPriorityGrouping` is missing from the
sources; the spec says it programs the interrupt priority grouping scheme. -/
def NVIC_SetPriorityGrouping {σ : Type} (group : Nat) (s : kernel σ) : kernel σ :=
  emit (event.NVIC_SetPriorityGrouping group) { s with prigroup := group }

/-- Modelled from the spec: `NVIC_SetPriority` is missing from the sources; the
spec says it sets the priority of one interrupt. -/
def NVIC_SetPriority {σ : Type} (irq : IRQn) (p : Nat) (s : kernel σ) : kernel σ :=
  emit (event.NVIC_SetPriority irq p)
    { s with priority := fun i => if i = irq then p else s.priority i }

/-- Modelled from the spec: `chSysHalt` is missing from the sources; the spec
says it halts the system with a diagnostic tag and never resumes. -/
def chSysHalt {σ : Type} (tag : String) (s : kernel σ) : outcome σ :=
  outcome.halted tag (emit (event.chSysHalt tag) s)

/-- Read the process stack pointer register. -/
def __get_PSP {σ : Type} (s : kernel σ) : Nat := u32 s.PSP

/-- Read the CONTROL register. -/
def __get_CONTROL {σ : Type} (s : kernel σ) : Nat := u32 s.CONTROL

/-- Read the floating-point status register. -/
def __get_FPSCR {σ : Type} (s : kernel σ) : Nat := u32 s.FPSCR

/-- Write the process stack pointer register. -/
def __set_PSP {σ : Type} (v : Nat) (s : kernel σ) : kernel σ :=
  emit (event.set_PSP v) { s with PSP := v }

/-! ## `__port_schedule_next` -/

/-- The return expression of `__port_schedule_next`:
`((uint64_t)(uint32_t)otp << 32) | ((uint64_t)(uint32_t)ntp << 0)`. -/
def switch_encode (otp ntp : Nat) : Nat :=
  ((u32 otp <<< 32) % 2 ^ 64) ||| ((u32 ntp <<< 0) % 2 ^ 64)

/-- Upper half of the 64-bit result: the old thread. -/
def switch_old (r : Nat) : Nat := r >>> 32

/-- Lower half of the 64-bit result: the new thread. -/
def switch_new (r : Nat) : Nat := r % 2 ^ 32

/-- Tail ISR context switch code (`chcore.c`, lines 131-152). -/
def __port_schedule_next {σ : Type} (cfg : port_config) (sch : scheduler σ)
    (s : kernel σ) : Nat × kernel σ :=
  let s1 := chSysLock s
  let q := chSchIsPreemptionRequired sch s1
  if q.1 then
    let o := chThdGetSelfX sch q.2
    let n := chSchSelectFirst sch o.2
    let s4 :=
      if cfg.PORT_ENABLE_GUARD_PAGES then
        mpuSetRegionAddress cfg.PORT_USE_GUARD_MPU_REGION (sch.wabase n.2.sch n.1) n.2
      else n.2
    (switch_encode o.1 n.1, s4)
  else
    let s2 := chSysUnlock q.2
    (0, s2)

/-- Setting up the MPU region for the current thread (`chcore.c`, lines 119-123),
compiled only when guard pages are enabled. -/
def __port_set_region {σ : Type} (cfg : port_config) (sch : scheduler σ)
    (s : kernel σ) : kernel σ :=
  let t := chThdGetSelfX sch s
  mpuSetRegionAddress cfg.PORT_USE_GUARD_MPU_REGION (sch.wabase t.2.sch t.1) t.2

/-- Replay the lock events of a trace on the lock flag. -/
def lock_after : Bool → List event → Bool
  | l, [] => l
  | _, event.chSysLock :: es => lock_after true es
  | _, event.chSysUnlock :: es => lock_after false es
  | l, _ :: es => lock_after l es

/-- Events that read or update the unit the kernel lock protects: scheduler
state, the running thread and the protection-region binding. -/
def protected_event : event → Bool
  | event.chSchIsPreemptionRequired => true
  | event.chThdGetSelfX => true
  | event.chSchSelectFirst => true
  | event.mpuSetRegionAddress _ _ => true
  | _ => false

/-- Starting with lock flag `l`, every protected event of the trace happens
while the lock is held. -/
def under_lock : Bool → List event → Bool
  | _, [] => true
  | _, event.chSysLock :: es => under_lock true es
  | _, event.chSysUnlock :: es => under_lock false es
  | l, e :: es => (!protected_event e || l) && under_lock l es

/-! ## Privilege transition -/

/-- Default system call handler (`chcore.c`, lines 71-77), a weak symbol
compiled when `PORT_USE_SYSCALL` is enabled. -/
def port_syscall {σ : Type} (ctxp n : Nat) (s : kernel σ) : outcome σ :=
  let _ := ctxp
  let _ := n
  chSysHalt "svc" s

/-- Address of the Exception Frame: `psp -= sizeof (struct port_extctx)`. -/
def ectxp_of (cfg : port_config) (psp : Nat) : Nat := sub32 psp cfg.sizeof_extctx

/-- Address of the Link Context: `s_psp -= sizeof (struct port_linkctx)`. -/
def lctxp_of {σ : Type} (cfg : port_config) (s : kernel σ) : Nat :=
  sub32 (__get_PSP s) cfg.sizeof_linkctx

/-- First part of `port_unprivileged_jump` (`chcore.c`, lines 85-95): the user
mode entry context is created and initialised. -/
def port_unprivileged_jump_frame {σ : Type} (cfg : port_config) (pc psp : Nat)
    (s : kernel σ) : kernel σ :=
  let ectxp := ectxp_of cfg psp
  let m1 := memset s.mem ectxp 0 cfg.sizeof_extctx
  let m2 := store32 m1 (ectxp + cfg.off_pc) pc
  let m3 := store32 m2 (ectxp + cfg.off_xpsr) 0x01000000
  let m4 := if cfg.CORTEX_USE_FPU then store32 m3 (ectxp + cfg.off_fpscr) (__get_FPSCR s) else m3
  { s with mem := m4 }

/-- The body of `port_unprivileged_jump` up to the supervisor call (`chcore.c`,
lines 82-107): the frame, then the middle context, then PSP is repointed. -/
def port_unprivileged_jump_link {σ : Type} (cfg : port_config) (pc psp : Nat)
    (s : kernel σ) : kernel σ :=
  let s_psp := __get_PSP s
  let control := __get_CONTROL s
  let ectxp := ectxp_of cfg psp
  let s1 := port_unprivileged_jump_frame cfg pc psp s
  let s_psp := sub32 s_psp cfg.sizeof_linkctx
  let lctxp := s_psp
  let m5 := store32 s1.mem (lctxp + cfg.off_control) (control ||| 1)
  let m6 := store32 m5 (lctxp + cfg.off_ectxp) ectxp
  __set_PSP s_psp { s1 with mem := m6 }

/-- The instruction `svc n`. The supervisor call handler is assembly outside
this file and is a parameter: it answers `none` when control never comes back
to the instruction after the call, `some s` when it does, in state `s`. -/
def svc {σ : Type} (handler : Nat → kernel σ → Option (kernel σ)) (n : Nat)
    (s : kernel σ) : Option (kernel σ) :=
  handler n (emit (event.svc n) s)

/-- Jump to unprivileged code (`chcore.c`, lines 79-112), compiled when
`PORT_USE_SYSCALL` is enabled. -/
def port_unprivileged_jump {σ : Type} (cfg : port_config)
    (handler : Nat → kernel σ → Option (kernel σ)) (pc psp : Nat) (s : kernel σ) :
    outcome σ :=
  let s2 := port_unprivileged_jump_link cfg pc psp s
  match svc handler 1 s2 with
  | none => outcome.no_return (emit (event.svc 1) s2)
  | some s3 => chSysHalt "svc" s3

/-- The layout constants are consistent: fields lie inside their structure and
do not overlap, and a structure fits in the address space. -/
def layout_ok (cfg : port_config) : Prop :=
  cfg.sizeof_extctx ≤ 2 ^ 32 ∧
  cfg.off_pc + 4 ≤ cfg.sizeof_extctx ∧
  cfg.off_xpsr + 4 ≤ cfg.sizeof_extctx ∧
  (cfg.off_pc + 4 ≤ cfg.off_xpsr ∨ cfg.off_xpsr + 4 ≤ cfg.off_pc) ∧
  (cfg.CORTEX_USE_FPU = true →
    cfg.off_fpscr + 4 ≤ cfg.sizeof_extctx ∧
    (cfg.off_pc + 4 ≤ cfg.off_fpscr ∨ cfg.off_fpscr + 4 ≤ cfg.off_pc) ∧
    (cfg.off_xpsr + 4 ≤ cfg.off_fpscr ∨ cfg.off_fpscr + 4 ≤ cfg.off_xpsr)) ∧
  cfg.sizeof_linkctx < 2 ^ 32 ∧
  cfg.off_control + 4 ≤ cfg.sizeof_linkctx ∧
  cfg.off_ectxp + 4 ≤ cfg.sizeof_linkctx ∧
  (cfg.off_control + 4 ≤ cfg.off_ectxp ∨ cfg.off_ectxp + 4 ≤ cfg.off_control)

/-- Offset `i` of the Exception Frame belongs to one of the fields that
`port_unprivileged_jump` assigns after the `memset`. -/
def assigned_offset (cfg : port_config) (i : Nat) : Prop :=
  (cfg.off_pc ≤ i ∧ i < cfg.off_pc + 4) ∨
  (cfg.off_xpsr ≤ i ∧ i < cfg.off_xpsr + 4) ∨
  (cfg.CORTEX_USE_FPU = true ∧ cfg.off_fpscr ≤ i ∧ i < cfg.off_fpscr + 4)

/-- Byte address `x` lies in the `n` bytes starting at `a` (wrapping around). -/
def in_block (a n x : Nat) : Prop := ∃ i, i < n ∧ x = (a + i) % 2 ^ 32

/-- The Link Context and the Exception Frame share no byte. -/
def separate {σ : Type} (cfg : port_config) (psp : Nat) (s : kernel σ) : Prop :=
  ∀ i j, i < cfg.sizeof_extctx → j < cfg.sizeof_linkctx →
    (ectxp_of cfg psp + i) % 2 ^ 32 ≠ (lctxp_of cfg s + j) % 2 ^ 32

/-! ## Port initialisation -/

/-- Port-related initialization code (`chcore.c`, lines 161-201). -/
def port_init {σ : Type} (cfg : port_config) (s : kernel σ) : kernel σ :=
  let s1 := port_suspend s
  let s2 := NVIC_SetPriorityGrouping cfg.CORTEX_PRIGROUP_INIT s1
  let s3 := { s2 with DEMCR := s2.DEMCR ||| cfg.CoreDebug_DEMCR_TRCENA_Msk }
  let s4 := if cfg.CORTEX_MODEL = 7 then { s3 with DWT_LAR := 0xC5ACCE55 } else s3
  let s5 := { s4 with DWT_CTRL := s4.DWT_CTRL ||| cfg.DWT_CTRL_CYCCNTENA_Msk }
  let s6 := NVIC_SetPriority IRQn.SVCall_IRQn cfg.CORTEX_PRIORITY_SVCALL s5
  let s7 := NVIC_SetPriority IRQn.PendSV_IRQn cfg.CORTEX_PRIORITY_PENDSV s6
  let s8 :=
    if cfg.PORT_ENABLE_GUARD_PAGES then
      mpuConfigureRegion cfg.PORT_USE_GUARD_MPU_REGION cfg.main_thread_stack_base
        (cfg.MPU_RASR_ATTR_AP_NA_NA ||| cfg.MPU_RASR_ATTR_NON_CACHEABLE |||
          cfg.MPU_RASR_SIZE_32 ||| cfg.MPU_RASR_ENABLE) s7
    else s7
  if cfg.PORT_ENABLE_GUARD_PAGES || cfg.PORT_USE_SYSCALL then
    mpuEnable cfg.MPU_CTRL_PRIVDEFENA s8
  else s8

/-- Events that program the protection unit. -/
def mpu_event : event → Bool
  | event.mpuSetRegionAddress _ _ => true
  | event.mpuConfigureRegion _ _ _ => true
  | event.mpuEnable _ => true
  | _ => false

/-! ## Concrete instances used to exercise the statements -/

/-- A Cortex-M4 style build without FPU: guard pages and system calls on, the
ARMv7-M basic exception frame (`r0`-`r3`, `r12`, `lr`, `pc`, `xpsr`). -/
def cfg_basic : port_config where
  PORT_ENABLE_GUARD_PAGES := true
  PORT_USE_SYSCALL := true
  CORTEX_USE_FPU := false
  CORTEX_MODEL := 4
  PORT_USE_GUARD_MPU_REGION := 7
  CORTEX_PRIGROUP_INIT := 3
  CORTEX_PRIORITY_SVCALL := 1
  CORTEX_PRIORITY_PENDSV := 15
  CoreDebug_DEMCR_TRCENA_Msk := 0x01000000
  DWT_CTRL_CYCCNTENA_Msk := 1
  MPU_RASR_ATTR_AP_NA_NA := 0
  MPU_RASR_ATTR_NON_CACHEABLE := 0x00080000
  MPU_RASR_SIZE_32 := 8
  MPU_RASR_ENABLE := 1
  MPU_CTRL_PRIVDEFENA := 4
  main_thread_stack_base := 0x20000000
  sizeof_extctx := 32
  off_pc := 24
  off_xpsr := 28
  off_fpscr := 0
  sizeof_linkctx := 8
  off_control := 0
  off_ectxp := 4

/-- A Cortex-M7 style build with FPU: the extended frame adds `s0`-`s15`,
`fpscr` and a reserved word. -/
def cfg_fpu : port_config :=
  { cfg_basic with CORTEX_USE_FPU := true, CORTEX_MODEL := 7, sizeof_extctx := 104,
                   off_fpscr := 96 }

/-- System calls without guard pages. -/
def cfg_syscall_only : port_config :=
  { cfg_basic with PORT_ENABLE_GUARD_PAGES := false }

/-- A toy scheduler: the state is (current thread, pending thread); preemption
is required when they differ; selecting makes the pending thread current; the
working area of a thread starts 0x100 below its handle. -/
def toy_scheduler : scheduler (Nat × Nat) where
  chSchIsPreemptionRequired := fun st => decide (st.1 ≠ st.2)
  chThdGetSelfX := fun st => st.1
  chSchSelectFirst := fun st => (st.2, (st.2, st.2))
  wabase := fun _ tp => tp - 0x100

/-- A kernel state after reset, over scheduler state `st`. -/
def kernel_reset {σ : Type} (st : σ) : kernel σ where
  sch := st
  locked := false
  PSP := 0x20001000
  CONTROL := 2
  FPSCR := 0
  mem := fun _ => 0xAA
  irq_suspended := false
  prigroup := 0
  priority := fun _ => 0
  DEMCR := 0
  DWT_LAR := 0
  DWT_CTRL := 0x40000000
  mpu_rbar := fun _ => 0
  mpu_rasr := fun _ => 0
  mpu_ctrl := none
  trace := []

/-- The Exception Frame at `ectxp_of cfg psp` in memory `m` is the one
`port_unprivileged_jump` builds: `pc` and `xpsr` (and `fpscr` with an FPU) hold
their values and every other byte of the frame is zero. -/
def frame_built (cfg : port_config) (pc psp fpscr : Nat) (m : Nat → Nat) : Prop :=
  load32 m (ectxp_of cfg psp + cfg.off_pc) = pc ∧
  load32 m (ectxp_of cfg psp + cfg.off_xpsr) = 0x01000000 ∧
  (cfg.CORTEX_USE_FPU = true → load32 m (ectxp_of cfg psp + cfg.off_fpscr) = fpscr) ∧
  ∀ i, i < cfg.sizeof_extctx → ¬ assigned_offset cfg i →
    mem_read8 m (ectxp_of cfg psp + i) = 0

/-- Modelled from the spec: the resume path is assembly missing from the
sources; the spec says it consumes the Link Context found at the trusted stack
pointer and pops the Exception Frame that context points to. The result is the
observed (program counter, status register). -/
def simulated_resume {σ : Type} (cfg : port_config) (s : kernel σ) : Nat × Nat :=
  let ectxp := load32 s.mem (s.PSP + cfg.off_ectxp)
  (load32 s.mem (ectxp + cfg.off_pc), load32 s.mem (ectxp + cfg.off_xpsr))

/-! ## Memory lemmas -/

theorem load32_store32 (m : Nat → Nat) (a v : Nat) :
    load32 (store32 m a v) a = v % 2 ^ 32 := by
  simp only [load32, store32, mem_write8, mem_read8]
  norm_num
  split_ifs <;> omega

theorem store32_outside (m : Nat → Nat) (a v x : Nat)
    (h : ∀ k, k < 4 → x ≠ (a + k) % 2 ^ 32) : store32 m a v x = m x := by
  have h0 := h 0 (by omega)
  have h1 := h 1 (by omega)
  have h2 := h 2 (by omega)
  have h3 := h 3 (by omega)
  simp only [store32, mem_write8]
  simp only [Nat.add_zero] at h0
  rw [if_neg h3, if_neg h2, if_neg h1, if_neg h0]

theorem load32_congr (m m' : Nat → Nat) (a : Nat)
    (h : ∀ k, k < 4 → m ((a + k) % 2 ^ 32) = m' ((a + k) % 2 ^ 32)) :
    load32 m a = load32 m' a := by
  have h0 := h 0 (by omega)
  have h1 := h 1 (by omega)
  have h2 := h 2 (by omega)
  have h3 := h 3 (by omega)
  simp only [Nat.add_zero] at h0
  simp only [load32, mem_read8, h0, h1, h2, h3]

theorem memset_inside (m : Nat → Nat) (a v n i : Nat) (hn : n ≤ 2 ^ 32) (hi : i < n) :
    memset m a v n ((a + i) % 2 ^ 32) = v % 256 := by
  induction n with
  | zero => omega
  | succ k ih =>
    simp only [memset, mem_write8]
    by_cases hik : i = k
    · subst hik; simp
    · have hne : (a + i) % 2 ^ 32 ≠ (a + k) % 2 ^ 32 := by
        norm_num at hn ⊢; omega
      rw [if_neg hne]
      exact ih (by omega) (by omega)

theorem memset_outside (m : Nat → Nat) (a v n x : Nat)
    (h : ∀ i, i < n → x ≠ (a + i) % 2 ^ 32) : memset m a v n x = m x := by
  induction n with
  | zero => rfl
  | succ k ih =>
    simp only [memset, mem_write8]
    rw [if_neg (h k (by omega))]
    exact ih (fun i hi => h i (by omega))

/-- A load after a store to four other bytes sees the old word. -/
theorem load32_store32_other (m : Nat → Nat) (a b v : Nat)
    (h : ∀ j k, j < 4 → k < 4 → (b + j) % 2 ^ 32 ≠ (a + k) % 2 ^ 32) :
    load32 (store32 m a v) b = load32 m b :=
  load32_congr _ _ _ fun j hj => store32_outside m a v _ fun k hk => h j k hj hk

/-! ## The switch encoding -/

theorem switch_encode_eq (otp ntp : Nat) :
    switch_encode otp ntp = 2 ^ 32 * (otp % 2 ^ 32) + ntp % 2 ^ 32 := by
  have h1 : otp % 2 ^ 32 < 2 ^ 32 := Nat.mod_lt _ (by norm_num)
  have h2 : ntp % 2 ^ 32 < 2 ^ 32 := Nat.mod_lt _ (by norm_num)
  have h3 : (otp % 2 ^ 32 * 2 ^ 32) % 2 ^ 64 = 2 ^ 32 * (otp % 2 ^ 32) := by
    norm_num at h1 ⊢; omega
  have h4 : ntp % 2 ^ 32 % 2 ^ 64 = ntp % 2 ^ 32 := by
    norm_num at h2 ⊢; omega
  simp only [switch_encode, u32, Nat.shiftLeft_eq, Nat.pow_zero, Nat.mul_one, h3, h4]
  exact (Nat.mul_add_lt_is_or h2 _).symm

theorem switch_decode (old new : Nat) (ho : old < 2 ^ 32) (hn : new < 2 ^ 32) :
    switch_old (switch_encode old new) = old ∧ switch_new (switch_encode old new) = new := by
  rw [switch_encode_eq, Nat.mod_eq_of_lt ho, Nat.mod_eq_of_lt hn]
  simp only [switch_old, switch_new, Nat.shiftRight_eq_div_pow]
  norm_num at ho hn ⊢
  omega

/-! ## `__port_schedule_next`: the two paths -/

/-- The switch path, written out. -/
theorem port_schedule_next_switch_eq {σ : Type} (cfg : port_config) (sch : scheduler σ)
    (s : kernel σ) (h : sch.chSchIsPreemptionRequired s.sch = true) :
    __port_schedule_next cfg sch s =
      (switch_encode (sch.chThdGetSelfX s.sch) (sch.chSchSelectFirst s.sch).1,
        if cfg.PORT_ENABLE_GUARD_PAGES then
          { s with
            sch := (sch.chSchSelectFirst s.sch).2
            locked := true
            mpu_rbar := fun r =>
              if r = cfg.PORT_USE_GUARD_MPU_REGION then
                sch.wabase (sch.chSchSelectFirst s.sch).2 (sch.chSchSelectFirst s.sch).1
              else s.mpu_rbar r
            trace := s.trace ++ [event.chSysLock, event.chSchIsPreemptionRequired,
              event.chThdGetSelfX, event.chSchSelectFirst,
              event.mpuSetRegionAddress cfg.PORT_USE_GUARD_MPU_REGION
                (sch.wabase (sch.chSchSelectFirst s.sch).2 (sch.chSchSelectFirst s.sch).1)] }
        else
          { s with
            sch := (sch.chSchSelectFirst s.sch).2
            locked := true
            trace := s.trace ++ [event.chSysLock, event.chSchIsPreemptionRequired,
              event.chThdGetSelfX, event.chSchSelectFirst] }) := by
  cases hg : cfg.PORT_ENABLE_GUARD_PAGES <;>
    simp [__port_schedule_next, chSysLock, chSysUnlock, chSchIsPreemptionRequired,
      chThdGetSelfX, chSchSelectFirst, mpuSetRegionAddress, emit, h, hg]

/-- The no-switch path, written out. -/
theorem port_schedule_next_idle_eq {σ : Type} (cfg : port_config) (sch : scheduler σ)
    (s : kernel σ) (h : sch.chSchIsPreemptionRequired s.sch = false) :
    __port_schedule_next cfg sch s =
      (0, { s with
            locked := false
            trace := s.trace ++ [event.chSysLock, event.chSchIsPreemptionRequired,
              event.chSysUnlock] }) := by
  simp [__port_schedule_next, chSysLock, chSysUnlock, chSchIsPreemptionRequired, emit, h]

/-- C1: when the scheduler reports that preemption is required, with `A` the
thread current on entry and `B` the thread returned by select-first (both
32-bit handles), `__port_schedule_next` returns `A` in the upper and `B` in the
lower 32 bits, the scheduler is left in the state select-first produced, and
with guard pages enabled the guard region base is `B->wabase`. The current
thread is read before select-first is called, which the trace shows. -/
theorem port_schedule_next_switch {σ : Type} (cfg : port_config) (sch : scheduler σ)
    (s : kernel σ) (hreq : sch.chSchIsPreemptionRequired s.sch = true)
    (hA : sch.chThdGetSelfX s.sch < 2 ^ 32)
    (hB : (sch.chSchSelectFirst s.sch).1 < 2 ^ 32) :
    (__port_schedule_next cfg sch s).1
        = 2 ^ 32 * sch.chThdGetSelfX s.sch + (sch.chSchSelectFirst s.sch).1 ∧
    switch_old (__port_schedule_next cfg sch s).1 = sch.chThdGetSelfX s.sch ∧
    switch_new (__port_schedule_next cfg sch s).1 = (sch.chSchSelectFirst s.sch).1 ∧
    (__port_schedule_next cfg sch s).2.sch = (sch.chSchSelectFirst s.sch).2 ∧
    (cfg.PORT_ENABLE_GUARD_PAGES = true →
      (__port_schedule_next cfg sch s).2.mpu_rbar cfg.PORT_USE_GUARD_MPU_REGION
        = sch.wabase (sch.chSchSelectFirst s.sch).2 (sch.chSchSelectFirst s.sch).1) ∧
    (∃ rest, (__port_schedule_next cfg sch s).2.trace
        = s.trace ++ event.chSysLock :: event.chSchIsPreemptionRequired ::
            event.chThdGetSelfX :: event.chSchSelectFirst :: rest) := by
  rw [port_schedule_next_switch_eq cfg sch s hreq]
  obtain ⟨h1, h2⟩ := switch_decode _ _ hA hB
  refine ⟨?_, h1, h2, ?_, ?_, ?_⟩
  · rw [switch_encode_eq, Nat.mod_eq_of_lt hA, Nat.mod_eq_of_lt hB]
  · cases cfg.PORT_ENABLE_GUARD_PAGES <;> rfl
  · intro hg
    simp [hg]
  · cases cfg.PORT_ENABLE_GUARD_PAGES
    · exact ⟨[], rfl⟩
    · exact ⟨[_], rfl⟩

/-- C2: when the scheduler reports that preemption is not required,
`__port_schedule_next` returns 0, never calls select-first, leaves the
scheduler state (hence the running thread) unchanged and leaves the
protection unit, in particular the region binding, as it was on entry. -/
theorem port_schedule_next_idle {σ : Type} (cfg : port_config) (sch : scheduler σ)
    (s : kernel σ) (hreq : sch.chSchIsPreemptionRequired s.sch = false) :
    (__port_schedule_next cfg sch s).1 = 0 ∧
    (__port_schedule_next cfg sch s).2.sch = s.sch ∧
    sch.chThdGetSelfX (__port_schedule_next cfg sch s).2.sch = sch.chThdGetSelfX s.sch ∧
    (__port_schedule_next cfg sch s).2.mpu_rbar = s.mpu_rbar ∧
    (__port_schedule_next cfg sch s).2.mpu_rasr = s.mpu_rasr ∧
    (__port_schedule_next cfg sch s).2.mpu_ctrl = s.mpu_ctrl ∧
    (∃ evs, (__port_schedule_next cfg sch s).2.trace = s.trace ++ evs ∧
      event.chSchSelectFirst ∉ evs ∧ ∀ e, e ∈ evs → mpu_event e = false) := by
  rw [port_schedule_next_idle_eq cfg sch s hreq]
  refine ⟨rfl, rfl, rfl, rfl, rfl, rfl, _, rfl, ?_, ?_⟩
  · simp
  · intro e he
    simp only [List.mem_cons, List.mem_singleton, List.not_mem_nil, or_false] at he
    rcases he with rfl | rfl | rfl <;> rfl

/-- C10: for 32-bit handles the 64-bit encoding is lossless (the upper half
gives back `old`, the lower half `new`), it is 0 exactly when both handles are
0, and so the switch path of `__port_schedule_next` never returns the
"no switch" value 0 when a handle is non-null. -/
theorem switch_encode_lossless (old new : Nat) (ho : old < 2 ^ 32) (hn : new < 2 ^ 32) :
    switch_old (switch_encode old new) = old ∧
    switch_new (switch_encode old new) = new ∧
    (switch_encode old new = 0 ↔ old = 0 ∧ new = 0) ∧
    (∀ (σ : Type) (cfg : port_config) (sch : scheduler σ) (s : kernel σ),
      sch.chSchIsPreemptionRequired s.sch = true →
      sch.chThdGetSelfX s.sch = old → (sch.chSchSelectFirst s.sch).1 = new →
      (old ≠ 0 ∨ new ≠ 0) → (__port_schedule_next cfg sch s).1 ≠ 0) := by
  have hz : switch_encode old new = 0 ↔ old = 0 ∧ new = 0 := by
    rw [switch_encode_eq, Nat.mod_eq_of_lt ho, Nat.mod_eq_of_lt hn]
    norm_num
  obtain ⟨h1, h2⟩ := switch_decode old new ho hn
  refine ⟨h1, h2, hz, ?_⟩
  intro σ cfg sch s hreq hA hB hnz
  rw [port_schedule_next_switch_eq cfg sch s hreq, hA, hB]
  intro h0
  have := hz.mp h0
  omega

/-- C1 at a concrete state: thread 0x20002000 is running, 0x20003000 is
selected; the result packs both and the guard region follows the new thread. -/
theorem port_schedule_next_switch_witness :
    switch_old (__port_schedule_next cfg_basic toy_scheduler
        (kernel_reset (0x20002000, 0x20003000))).1 = 0x20002000 ∧
    switch_new (__port_schedule_next cfg_basic toy_scheduler
        (kernel_reset (0x20002000, 0x20003000))).1 = 0x20003000 ∧
    (__port_schedule_next cfg_basic toy_scheduler
        (kernel_reset (0x20002000, 0x20003000))).2.mpu_rbar 7 = 0x20002F00 :=
  have h := port_schedule_next_switch cfg_basic toy_scheduler
    (kernel_reset (0x20002000, 0x20003000)) (by decide) (by decide) (by decide)
  ⟨h.2.1, h.2.2.1, h.2.2.2.2.1 rfl⟩

/-- C2 at a concrete state: the running thread is also the first runnable
one, nothing is switched and the region binding stays as it was. -/
theorem port_schedule_next_idle_witness :
    (__port_schedule_next cfg_basic toy_scheduler
        (kernel_reset (0x20002000, 0x20002000))).1 = 0 ∧
    (__port_schedule_next cfg_basic toy_scheduler
        (kernel_reset (0x20002000, 0x20002000))).2.mpu_rbar
      = (kernel_reset (0x20002000, 0x20002000)).mpu_rbar :=
  have h := port_schedule_next_idle cfg_basic toy_scheduler
    (kernel_reset (0x20002000, 0x20002000)) (by decide)
  ⟨h.1, h.2.2.2.1⟩

/-- C10 at concrete handles. -/
theorem switch_encode_lossless_witness :
    switch_old (switch_encode 0x20002000 0x20003000) = 0x20002000 ∧
    switch_new (switch_encode 0x20002000 0x20003000) = 0x20003000 :=
  have h := switch_encode_lossless 0x20002000 0x20003000 (by decide) (by decide)
  ⟨h.1, h.2.1⟩

/-- C3: entered from the interrupt tail, where the kernel lock is not held,
`__port_schedule_next` first acquires the kernel lock; every scheduler query
and every write of the region binding it makes happens while the lock is held.
On the switch path it never releases the lock and returns with it held. On the
no-switch path it releases the lock exactly once, as its last action, and the
lock state on return equals the lock state on entry. -/
theorem port_schedule_next_lock {σ : Type} (cfg : port_config) (sch : scheduler σ)
    (s : kernel σ) (hentry : s.locked = false) :
    ∃ evs, (__port_schedule_next cfg sch s).2.trace = s.trace ++ evs ∧
      evs.head? = some event.chSysLock ∧
      under_lock s.locked evs = true ∧
      (__port_schedule_next cfg sch s).2.locked = lock_after s.locked evs ∧
      (sch.chSchIsPreemptionRequired s.sch = true →
        evs = [event.chSysLock, event.chSchIsPreemptionRequired, event.chThdGetSelfX,
                event.chSchSelectFirst] ++
              (if cfg.PORT_ENABLE_GUARD_PAGES then
                [event.mpuSetRegionAddress cfg.PORT_USE_GUARD_MPU_REGION
                  (sch.wabase (sch.chSchSelectFirst s.sch).2 (sch.chSchSelectFirst s.sch).1)]
               else []) ∧
        event.chSysUnlock ∉ evs ∧
        (__port_schedule_next cfg sch s).2.locked = true) ∧
      (sch.chSchIsPreemptionRequired s.sch = false →
        evs = [event.chSysLock, event.chSchIsPreemptionRequired, event.chSysUnlock] ∧
        evs.count event.chSysUnlock = 1 ∧
        (__port_schedule_next cfg sch s).2.locked = false ∧
        (__port_schedule_next cfg sch s).2.locked = s.locked) := by
  cases hreq : sch.chSchIsPreemptionRequired s.sch
  · rw [port_schedule_next_idle_eq cfg sch s hreq]
    refine ⟨_, rfl, rfl, rfl, rfl, ?_, ?_⟩
    · intro h; cases h
    · intro _
      exact ⟨rfl, by decide, rfl, hentry.symm⟩
  · rw [port_schedule_next_switch_eq cfg sch s hreq]
    cases hg : cfg.PORT_ENABLE_GUARD_PAGES
    · refine ⟨_, rfl, rfl, rfl, rfl, ?_, ?_⟩
      · intro _
        exact ⟨rfl, by simp, rfl⟩
      · intro h; cases h
    · refine ⟨_, rfl, rfl, rfl, rfl, ?_, ?_⟩
      · intro _
        exact ⟨rfl, by simp, rfl⟩
      · intro h; cases h

/-- C3 at two concrete entries with the lock not held: with nothing to switch
the lock state on return is the entry state and exactly three calls were made,
ending with the release; with a switch pending the lock is held on return. -/
theorem port_schedule_next_lock_witness :
    (kernel_reset (0x20002000, 0x20002000)).locked = false ∧
    (__port_schedule_next cfg_basic toy_scheduler
        (kernel_reset (0x20002000, 0x20002000))).2.locked
      = (kernel_reset (0x20002000, 0x20002000)).locked ∧
    (__port_schedule_next cfg_basic toy_scheduler
        (kernel_reset (0x20002000, 0x20003000))).2.locked = true := by
  obtain ⟨_, _, _, _, _, _, h1⟩ := port_schedule_next_lock cfg_basic toy_scheduler
    (kernel_reset (0x20002000, 0x20002000)) rfl
  obtain ⟨_, _, _, _, _, h2, _⟩ := port_schedule_next_lock cfg_basic toy_scheduler
    (kernel_reset (0x20002000, 0x20003000)) rfl
  exact ⟨rfl, (h1 (by decide)).2.2.2, (h2 (by decide)).2.2⟩

/-! ## The privilege transition -/

/-- C6: the default `port_syscall` halts the system with tag "svc" for every
context pointer and every request number; it never returns to service the
request, its result does not depend on the context pointer, on the number or
on the memory contents, and memory is left untouched. -/
theorem port_syscall_halts {σ : Type} (ctxp n : Nat) (s : kernel σ) :
    port_syscall ctxp n s = outcome.halted "svc" (emit (event.chSysHalt "svc") s) ∧
    (∀ r, port_syscall ctxp n s ≠ outcome.returned r) ∧
    (∀ ctxp' n', port_syscall ctxp' n' s = port_syscall ctxp n s) ∧
    (∀ m, port_syscall ctxp n { s with mem := m }
      = outcome.halted "svc" (emit (event.chSysHalt "svc") { s with mem := m })) ∧
    (emit (event.chSysHalt "svc") s).mem = s.mem ∧
    (emit (event.chSysHalt "svc") s).trace = s.trace ++ [event.chSysHalt "svc"] := by
  refine ⟨rfl, ?_, fun _ _ => rfl, fun _ => rfl, rfl, rfl⟩
  intro r h
  simp [port_syscall, chSysHalt] at h

/-- The state in which `port_unprivileged_jump` executes `svc 1`: PSP points
at the Link Context and the only collaborator call so far is the PSP write. -/
theorem port_unprivileged_jump_link_regs {σ : Type} (cfg : port_config) (pc psp : Nat)
    (s : kernel σ) :
    (port_unprivileged_jump_link cfg pc psp s).PSP = lctxp_of cfg s ∧
    (port_unprivileged_jump_link cfg pc psp s).trace
      = s.trace ++ [event.set_PSP (lctxp_of cfg s)] :=
  ⟨rfl, rfl⟩

/-- C7: `port_unprivileged_jump` never returns normally. After repointing PSP
at the Link Context it issues exactly one supervisor call, `svc 1`; if the
handler keeps control the function does not come back, and if control comes
back from the call the system is halted with tag "svc". -/
theorem port_unprivileged_jump_no_return {σ : Type} (cfg : port_config)
    (handler : Nat → kernel σ → Option (kernel σ)) (pc psp : Nat) (s : kernel σ) :
    (∀ r, port_unprivileged_jump cfg handler pc psp s ≠ outcome.returned r) ∧
    (emit (event.svc 1) (port_unprivileged_jump_link cfg pc psp s)).trace
      = s.trace ++ [event.set_PSP (lctxp_of cfg s), event.svc 1] ∧
    (emit (event.svc 1) (port_unprivileged_jump_link cfg pc psp s)).PSP = lctxp_of cfg s ∧
    (handler 1 (emit (event.svc 1) (port_unprivileged_jump_link cfg pc psp s)) = none →
      port_unprivileged_jump cfg handler pc psp s
        = outcome.no_return (emit (event.svc 1) (port_unprivileged_jump_link cfg pc psp s))) ∧
    (∀ s3, handler 1 (emit (event.svc 1) (port_unprivileged_jump_link cfg pc psp s)) = some s3 →
      port_unprivileged_jump cfg handler pc psp s
        = outcome.halted "svc" (emit (event.chSysHalt "svc") s3)) := by
  refine ⟨?_, ?_, rfl, ?_, ?_⟩
  · intro r h
    unfold port_unprivileged_jump svc at h
    cases hh : handler 1 (emit (event.svc 1) (port_unprivileged_jump_link cfg pc psp s)) <;>
      simp [hh, chSysHalt] at h
  · simp [(port_unprivileged_jump_link_regs cfg pc psp s).2, emit]
  · intro hh
    simp [port_unprivileged_jump, svc, hh]
  · intro s3 hh
    simp [port_unprivileged_jump, svc, hh, chSysHalt]

theorem field_disjoint (e a b n j k : Nat) (hn : n ≤ 2 ^ 32) (ha : a + 4 ≤ n)
    (hb : b + 4 ≤ n) (hab : a + 4 ≤ b ∨ b + 4 ≤ a) (hj : j < 4) (hk : k < 4) :
    (e + a + j) % 2 ^ 32 ≠ (e + b + k) % 2 ^ 32 := by
  norm_num at hn ⊢
  omega

theorem byte_disjoint (e a n i k : Nat) (hn : n ≤ 2 ^ 32) (ha : a + 4 ≤ n) (hi : i < n)
    (hne : ¬ (a ≤ i ∧ i < a + 4)) (hk : k < 4) :
    (e + i) % 2 ^ 32 ≠ (e + a + k) % 2 ^ 32 := by
  norm_num at hn ⊢
  omega

theorem ectxp_of_lt (cfg : port_config) (psp : Nat) : ectxp_of cfg psp < 2 ^ 32 :=
  Nat.mod_lt _ (by norm_num)

/-- Memory after the frame is built, written out. -/
theorem port_unprivileged_jump_frame_mem {σ : Type} (cfg : port_config) (pc psp : Nat)
    (s : kernel σ) :
    (port_unprivileged_jump_frame cfg pc psp s).mem =
      if cfg.CORTEX_USE_FPU then
        store32 (store32 (store32 (memset s.mem (ectxp_of cfg psp) 0 cfg.sizeof_extctx)
          (ectxp_of cfg psp + cfg.off_pc) pc) (ectxp_of cfg psp + cfg.off_xpsr) 0x01000000)
          (ectxp_of cfg psp + cfg.off_fpscr) (__get_FPSCR s)
      else
        store32 (store32 (memset s.mem (ectxp_of cfg psp) 0 cfg.sizeof_extctx)
          (ectxp_of cfg psp + cfg.off_pc) pc) (ectxp_of cfg psp + cfg.off_xpsr) 0x01000000 := by
  cases h : cfg.CORTEX_USE_FPU <;> simp [port_unprivileged_jump_frame, h]

/-- Memory at the supervisor call, written out. -/
theorem port_unprivileged_jump_link_mem {σ : Type} (cfg : port_config) (pc psp : Nat)
    (s : kernel σ) :
    (port_unprivileged_jump_link cfg pc psp s).mem =
      store32 (store32 (port_unprivileged_jump_frame cfg pc psp s).mem
        (lctxp_of cfg s + cfg.off_control) (__get_CONTROL s ||| 1))
        (lctxp_of cfg s + cfg.off_ectxp) (ectxp_of cfg psp) :=
  rfl

/-- The frame as built, for every `pc`, `psp` and state. -/
theorem frame_built_after_frame {σ : Type} (cfg : port_config) (pc psp : Nat)
    (s : kernel σ) (hl : layout_ok cfg) (hpc : pc < 2 ^ 32) :
    frame_built cfg pc psp (__get_FPSCR s) (port_unprivileged_jump_frame cfg pc psp s).mem := by
  obtain ⟨hn, hp, hx, hpx, hf, -⟩ := hl
  have hfp : __get_FPSCR s % 2 ^ 32 = __get_FPSCR s := by
    simp [__get_FPSCR, u32]
  rw [port_unprivileged_jump_frame_mem]
  cases hfpu : cfg.CORTEX_USE_FPU
  · refine ⟨?_, ?_, ?_, ?_⟩
    · simp only [Bool.false_eq_true, if_false]
      rw [load32_store32_other _ _ _ _ fun j k hj hk =>
        field_disjoint _ _ _ _ j k hn hp hx hpx hj hk]
      rw [load32_store32, Nat.mod_eq_of_lt hpc]
    · simp only [Bool.false_eq_true, if_false]
      rw [load32_store32]
      norm_num
    · intro h
      simp [hfpu] at h
    · intro i hi hna
      simp only [Bool.false_eq_true, if_false, mem_read8]
      have h1 : ¬ (cfg.off_pc ≤ i ∧ i < cfg.off_pc + 4) := fun h => hna (Or.inl h)
      have h2 : ¬ (cfg.off_xpsr ≤ i ∧ i < cfg.off_xpsr + 4) := fun h => hna (Or.inr (Or.inl h))
      rw [store32_outside _ _ _ _ fun k hk => byte_disjoint _ _ _ i k hn hx hi h2 hk]
      rw [store32_outside _ _ _ _ fun k hk => byte_disjoint _ _ _ i k hn hp hi h1 hk]
      rw [memset_inside _ _ _ _ _ hn hi]
  · obtain ⟨hfs, hpf, hxf⟩ := hf hfpu
    refine ⟨?_, ?_, ?_, ?_⟩
    · simp only [if_true]
      rw [load32_store32_other _ _ _ _ fun j k hj hk =>
        field_disjoint _ _ _ _ j k hn hp hfs hpf hj hk]
      rw [load32_store32_other _ _ _ _ fun j k hj hk =>
        field_disjoint _ _ _ _ j k hn hp hx hpx hj hk]
      rw [load32_store32, Nat.mod_eq_of_lt hpc]
    · simp only [if_true]
      rw [load32_store32_other _ _ _ _ fun j k hj hk =>
        field_disjoint _ _ _ _ j k hn hx hfs hxf hj hk]
      rw [load32_store32]
      norm_num
    · intro _
      simp only [if_true]
      rw [load32_store32, hfp]
    · intro i hi hna
      simp only [if_true, mem_read8]
      have h1 : ¬ (cfg.off_pc ≤ i ∧ i < cfg.off_pc + 4) := fun h => hna (Or.inl h)
      have h2 : ¬ (cfg.off_xpsr ≤ i ∧ i < cfg.off_xpsr + 4) := fun h => hna (Or.inr (Or.inl h))
      have h3 : ¬ (cfg.off_fpscr ≤ i ∧ i < cfg.off_fpscr + 4) :=
        fun h => hna (Or.inr (Or.inr ⟨hfpu, h⟩))
      rw [store32_outside _ _ _ _ fun k hk => byte_disjoint _ _ _ i k hn hfs hi h3 hk]
      rw [store32_outside _ _ _ _ fun k hk => byte_disjoint _ _ _ i k hn hx hi h2 hk]
      rw [store32_outside _ _ _ _ fun k hk => byte_disjoint _ _ _ i k hn hp hi h1 hk]
      rw [memset_inside _ _ _ _ _ hn hi]

/-- The two stores of the middle context only touch the Link Context. -/
theorem link_mem_outside {σ : Type} (cfg : port_config) (pc psp : Nat) (s : kernel σ)
    (hl : layout_ok cfg) (x : Nat)
    (h : ∀ j, j < cfg.sizeof_linkctx → x ≠ (lctxp_of cfg s + j) % 2 ^ 32) :
    (port_unprivileged_jump_link cfg pc psp s).mem x
      = (port_unprivileged_jump_frame cfg pc psp s).mem x := by
  obtain ⟨-, -, -, -, -, -, hc, he, -⟩ := hl
  rw [port_unprivileged_jump_link_mem]
  rw [store32_outside _ _ _ _ fun k hk => by
    rw [Nat.add_assoc]; exact h _ (by omega)]
  rw [store32_outside _ _ _ _ fun k hk => by
    rw [Nat.add_assoc]; exact h _ (by omega)]

/-- Building the frame only touches the Exception Frame. -/
theorem frame_mem_outside {σ : Type} (cfg : port_config) (pc psp : Nat) (s : kernel σ)
    (hl : layout_ok cfg) (x : Nat)
    (h : ∀ i, i < cfg.sizeof_extctx → x ≠ (ectxp_of cfg psp + i) % 2 ^ 32) :
    (port_unprivileged_jump_frame cfg pc psp s).mem x = s.mem x := by
  obtain ⟨-, hp, hx, -, hf, -⟩ := hl
  rw [port_unprivileged_jump_frame_mem]
  cases hfpu : cfg.CORTEX_USE_FPU
  · simp only [Bool.false_eq_true, if_false]
    rw [store32_outside _ _ _ _ fun k hk => by
      rw [Nat.add_assoc]; exact h _ (by omega)]
    rw [store32_outside _ _ _ _ fun k hk => by
      rw [Nat.add_assoc]; exact h _ (by omega)]
    exact memset_outside _ _ _ _ _ h
  · obtain ⟨hfs, -, -⟩ := hf hfpu
    simp only [if_true]
    rw [store32_outside _ _ _ _ fun k hk => by
      rw [Nat.add_assoc]; exact h _ (by omega)]
    rw [store32_outside _ _ _ _ fun k hk => by
      rw [Nat.add_assoc]; exact h _ (by omega)]
    rw [store32_outside _ _ _ _ fun k hk => by
      rw [Nat.add_assoc]; exact h _ (by omega)]
    exact memset_outside _ _ _ _ _ h

/-- The fields of the Link Context at the supervisor call. -/
theorem link_fields {σ : Type} (cfg : port_config) (pc psp : Nat) (s : kernel σ)
    (hl : layout_ok cfg) :
    load32 (port_unprivileged_jump_link cfg pc psp s).mem (lctxp_of cfg s + cfg.off_control)
      = __get_CONTROL s ||| 1 ∧
    load32 (port_unprivileged_jump_link cfg pc psp s).mem (lctxp_of cfg s + cfg.off_ectxp)
      = ectxp_of cfg psp := by
  obtain ⟨-, -, -, -, -, hn, hc, he, hce⟩ := hl
  have hctl : (__get_CONTROL s ||| 1) % 2 ^ 32 = __get_CONTROL s ||| 1 :=
    Nat.mod_eq_of_lt (Nat.or_lt_two_pow (Nat.mod_lt _ (by norm_num)) (by norm_num))
  rw [port_unprivileged_jump_link_mem]
  constructor
  · rw [load32_store32_other _ _ _ _ fun j k hj hk =>
      field_disjoint _ _ _ _ j k (Nat.le_of_lt hn) hc he hce hj hk]
    rw [load32_store32, hctl]
  · rw [load32_store32, Nat.mod_eq_of_lt (ectxp_of_lt cfg psp)]

/-- A frame is determined by the bytes of its block. -/
theorem frame_built_congr (cfg : port_config) (pc psp fpscr : Nat) (m m' : Nat → Nat)
    (hl : layout_ok cfg)
    (h : ∀ i, i < cfg.sizeof_extctx →
      m' ((ectxp_of cfg psp + i) % 2 ^ 32) = m ((ectxp_of cfg psp + i) % 2 ^ 32))
    (hb : frame_built cfg pc psp fpscr m) : frame_built cfg pc psp fpscr m' := by
  obtain ⟨-, hp, hx, -, hf, -⟩ := hl
  obtain ⟨b1, b2, b3, b4⟩ := hb
  refine ⟨?_, ?_, ?_, ?_⟩
  · rw [← b1]
    exact load32_congr _ _ _ fun k hk => by
      rw [Nat.add_assoc]; exact h _ (by omega)
  · rw [← b2]
    exact load32_congr _ _ _ fun k hk => by
      rw [Nat.add_assoc]; exact h _ (by omega)
  · intro hfpu
    obtain ⟨hfs, -, -⟩ := hf hfpu
    rw [← b3 hfpu]
    exact load32_congr _ _ _ fun k hk => by
      rw [Nat.add_assoc]; exact h _ (by omega)
  · intro i hi hna
    rw [← b4 i hi hna]
    exact h i hi

/-- C5: for every trusted stack pointer and CONTROL value, given a consistent
layout of the two structures, `port_unprivileged_jump` reaches the supervisor call with
PSP equal to the old PSP minus `sizeof (struct port_linkctx)`, so the stack
pointer moved by exactly the size of one Link Context; the Link Context there
has `control` equal to CONTROL with bit 0 set and `ectxp` equal to the address
of the Exception Frame, `psp - sizeof (struct port_extctx)`; no byte outside
that Link Context and the Exception Frame is written; and the PSP write is the
only collaborator call made before the supervisor call. -/
theorem port_unprivileged_jump_link_context {σ : Type} (cfg : port_config) (pc psp : Nat)
    (s : kernel σ) (hl : layout_ok cfg) :
    (port_unprivileged_jump_link cfg pc psp s).PSP
      = sub32 (__get_PSP s) cfg.sizeof_linkctx ∧
    sub32 (__get_PSP s) (port_unprivileged_jump_link cfg pc psp s).PSP
      = cfg.sizeof_linkctx ∧
    load32 (port_unprivileged_jump_link cfg pc psp s).mem
        ((port_unprivileged_jump_link cfg pc psp s).PSP + cfg.off_control)
      = __get_CONTROL s ||| 1 ∧
    load32 (port_unprivileged_jump_link cfg pc psp s).mem
        ((port_unprivileged_jump_link cfg pc psp s).PSP + cfg.off_ectxp)
      = sub32 psp cfg.sizeof_extctx ∧
    (∀ x, ¬ in_block (sub32 (__get_PSP s) cfg.sizeof_linkctx) cfg.sizeof_linkctx x →
      ¬ in_block (sub32 psp cfg.sizeof_extctx) cfg.sizeof_extctx x →
      (port_unprivileged_jump_link cfg pc psp s).mem x = s.mem x) ∧
    (port_unprivileged_jump_link cfg pc psp s).trace
      = s.trace ++ [event.set_PSP (sub32 (__get_PSP s) cfg.sizeof_linkctx)] ∧
    (∀ handler : Nat → kernel σ → Option (kernel σ),
      port_unprivileged_jump cfg handler pc psp s =
        match handler 1 (emit (event.svc 1) (port_unprivileged_jump_link cfg pc psp s)) with
        | none => outcome.no_return (emit (event.svc 1) (port_unprivileged_jump_link cfg pc psp s))
        | some s3 => chSysHalt "svc" s3) := by
  have hf := link_fields cfg pc psp s hl
  have hsz : cfg.sizeof_linkctx < 2 ^ 32 := hl.2.2.2.2.2.1
  refine ⟨rfl, ?_, hf.1, hf.2, ?_, rfl, fun _ => rfl⟩
  · show sub32 (__get_PSP s) (sub32 (__get_PSP s) cfg.sizeof_linkctx) = cfg.sizeof_linkctx
    have hp : __get_PSP s < 2 ^ 32 := Nat.mod_lt _ (by norm_num)
    simp only [sub32]
    norm_num at hsz hp ⊢
    omega
  · intro x hx1 hx2
    rw [link_mem_outside cfg pc psp s hl x fun j hj hxj => hx1 ⟨j, hj, hxj⟩]
    exact frame_mem_outside cfg pc psp s hl x fun i hi hxi => hx2 ⟨i, hi, hxi⟩

/-- C4, amended: for every `pc`, `psp` and state (with consistent structure
layout and a 32-bit `pc`), the Exception Frame that `port_unprivileged_jump`
builds at `psp - sizeof (struct port_extctx)` has `pc` equal to the entry
point, `xpsr` equal to 0x01000000, `fpscr` equal to the current FPSCR when the
FPU is configured, and every other byte zero. When the Link Context shares no
byte with that frame, the frame is still so at the supervisor call, and a
resume that follows the Link Context and pops the frame observes program
counter `pc` and status 0x01000000. -/
theorem port_unprivileged_jump_frame_ok {σ : Type} (cfg : port_config) (pc psp : Nat)
    (s : kernel σ) (hl : layout_ok cfg) (hpc : pc < 2 ^ 32) :
    frame_built cfg pc psp (__get_FPSCR s) (port_unprivileged_jump_frame cfg pc psp s).mem ∧
    (separate cfg psp s →
      frame_built cfg pc psp (__get_FPSCR s) (port_unprivileged_jump_link cfg pc psp s).mem ∧
      simulated_resume cfg (port_unprivileged_jump_link cfg pc psp s) = (pc, 0x01000000)) := by
  have hb := frame_built_after_frame cfg pc psp s hl hpc
  refine ⟨hb, fun hsep => ?_⟩
  have hb2 : frame_built cfg pc psp (__get_FPSCR s)
      (port_unprivileged_jump_link cfg pc psp s).mem :=
    frame_built_congr cfg pc psp _ _ _ hl
      (fun i hi => link_mem_outside cfg pc psp s hl _ fun j hj => hsep i j hi hj) hb
  refine ⟨hb2, ?_⟩
  have hf := (link_fields cfg pc psp s hl).2
  have hpsp : (port_unprivileged_jump_link cfg pc psp s).PSP = lctxp_of cfg s := rfl
  simp only [simulated_resume, hpsp, hf, hb2.1, hb2.2.1]

theorem layout_ok_cfg_basic : layout_ok cfg_basic := by
  simp [layout_ok, cfg_basic]

theorem layout_ok_cfg_fpu : layout_ok cfg_fpu := by
  simp [layout_ok, cfg_fpu, cfg_basic]

theorem separate_cfg_fpu : separate cfg_fpu 0x20008000 (kernel_reset ()) := by
  intro i j hi hj
  simp only [ectxp_of, lctxp_of, sub32, __get_PSP, u32, cfg_fpu, cfg_basic, kernel_reset] at hi hj ⊢
  norm_num
  omega

/-- C4 as stated fails: with the basic frame, when the unprivileged stack
pointer passed in is the current PSP, the Link Context is written over the
`pc` and `xpsr` words of the Exception Frame. At the supervisor call the
frame holds `pc = CONTROL | 1 = 3` and `xpsr = 0x20000FE0`, not the entry
point 0x08000401 and 0x01000000, and that is what a resume observes. -/
theorem port_unprivileged_jump_frame_counterexample :
    layout_ok cfg_basic ∧
    ectxp_of cfg_basic 0x20001000 = 0x20000FE0 ∧
    load32 (port_unprivileged_jump_link cfg_basic 0x08000401 0x20001000 (kernel_reset ())).mem
        (ectxp_of cfg_basic 0x20001000 + cfg_basic.off_pc) = 3 ∧
    load32 (port_unprivileged_jump_link cfg_basic 0x08000401 0x20001000 (kernel_reset ())).mem
        (ectxp_of cfg_basic 0x20001000 + cfg_basic.off_xpsr) = 0x20000FE0 ∧
    simulated_resume cfg_basic
        (port_unprivileged_jump_link cfg_basic 0x08000401 0x20001000 (kernel_reset ()))
      = (3, 0x20000FE0) := by
  refine ⟨layout_ok_cfg_basic, by decide, by decide, by decide, by decide⟩

/-- C4 at a concrete input: FPU build, entry point 0x08000401, unprivileged
stack top 0x20008000, trusted stack at 0x20001000. -/
theorem port_unprivileged_jump_frame_ok_witness :
    layout_ok cfg_fpu ∧ separate cfg_fpu 0x20008000 (kernel_reset ()) ∧
    frame_built cfg_fpu 0x08000401 0x20008000 (__get_FPSCR (kernel_reset ()))
      (port_unprivileged_jump_frame cfg_fpu 0x08000401 0x20008000 (kernel_reset ())).mem ∧
    simulated_resume cfg_fpu
        (port_unprivileged_jump_link cfg_fpu 0x08000401 0x20008000 (kernel_reset ()))
      = (0x08000401, 0x01000000) :=
  have h := port_unprivileged_jump_frame_ok cfg_fpu 0x08000401 0x20008000 (kernel_reset ())
    layout_ok_cfg_fpu (by decide)
  ⟨layout_ok_cfg_fpu, separate_cfg_fpu, h.1, (h.2 separate_cfg_fpu).2⟩

/-- C5 at a concrete input: PSP 0x20001000 and CONTROL 2 on entry. -/
theorem port_unprivileged_jump_link_context_witness :
    layout_ok cfg_basic ∧
    (port_unprivileged_jump_link cfg_basic 0x08000401 0x20008000 (kernel_reset ())).PSP
      = 0x20000FF8 ∧
    load32 (port_unprivileged_jump_link cfg_basic 0x08000401 0x20008000 (kernel_reset ())).mem
        ((port_unprivileged_jump_link cfg_basic 0x08000401 0x20008000 (kernel_reset ())).PSP
          + cfg_basic.off_control) = 3 ∧
    load32 (port_unprivileged_jump_link cfg_basic 0x08000401 0x20008000 (kernel_reset ())).mem
        ((port_unprivileged_jump_link cfg_basic 0x08000401 0x20008000 (kernel_reset ())).PSP
          + cfg_basic.off_ectxp) = 0x20007FE0 :=
  have h := port_unprivileged_jump_link_context cfg_basic 0x08000401 0x20008000
    (kernel_reset ()) layout_ok_cfg_basic
  ⟨layout_ok_cfg_basic, h.1, h.2.2.1, h.2.2.2.1⟩

/-! ## Port initialisation -/

/-- The registers `port_init` programs, written out. -/
theorem port_init_regs {σ : Type} (cfg : port_config) (s : kernel σ) :
    (port_init cfg s).prigroup = cfg.CORTEX_PRIGROUP_INIT ∧
    (port_init cfg s).priority IRQn.SVCall_IRQn = cfg.CORTEX_PRIORITY_SVCALL ∧
    (port_init cfg s).priority IRQn.PendSV_IRQn = cfg.CORTEX_PRIORITY_PENDSV ∧
    (port_init cfg s).DEMCR = s.DEMCR ||| cfg.CoreDebug_DEMCR_TRCENA_Msk ∧
    (port_init cfg s).DWT_CTRL = s.DWT_CTRL ||| cfg.DWT_CTRL_CYCCNTENA_Msk ∧
    (port_init cfg s).irq_suspended = true := by
  by_cases hm : cfg.CORTEX_MODEL = 7 <;>
  cases hg : cfg.PORT_ENABLE_GUARD_PAGES <;>
  cases hs : cfg.PORT_USE_SYSCALL <;>
  simp [port_init, port_suspend, NVIC_SetPriorityGrouping, NVIC_SetPriority,
    mpuConfigureRegion, mpuEnable, emit, hm, hg, hs]

/-- The protection unit and the trace after `port_init`, written out. -/
theorem port_init_mpu_eq {σ : Type} (cfg : port_config) (s : kernel σ) :
    (port_init cfg s).trace
      = s.trace ++ [event.port_suspend,
          event.NVIC_SetPriorityGrouping cfg.CORTEX_PRIGROUP_INIT,
          event.NVIC_SetPriority IRQn.SVCall_IRQn cfg.CORTEX_PRIORITY_SVCALL,
          event.NVIC_SetPriority IRQn.PendSV_IRQn cfg.CORTEX_PRIORITY_PENDSV]
        ++ (if cfg.PORT_ENABLE_GUARD_PAGES then
              [event.mpuConfigureRegion cfg.PORT_USE_GUARD_MPU_REGION
                cfg.main_thread_stack_base
                (cfg.MPU_RASR_ATTR_AP_NA_NA ||| cfg.MPU_RASR_ATTR_NON_CACHEABLE |||
                  cfg.MPU_RASR_SIZE_32 ||| cfg.MPU_RASR_ENABLE)]
            else [])
        ++ (if cfg.PORT_ENABLE_GUARD_PAGES || cfg.PORT_USE_SYSCALL then
              [event.mpuEnable cfg.MPU_CTRL_PRIVDEFENA]
            else []) ∧
    (port_init cfg s).mpu_rbar
      = (if cfg.PORT_ENABLE_GUARD_PAGES then
          fun r => if r = cfg.PORT_USE_GUARD_MPU_REGION then cfg.main_thread_stack_base
                   else s.mpu_rbar r
        else s.mpu_rbar) ∧
    (port_init cfg s).mpu_rasr
      = (if cfg.PORT_ENABLE_GUARD_PAGES then
          fun r => if r = cfg.PORT_USE_GUARD_MPU_REGION then
                     cfg.MPU_RASR_ATTR_AP_NA_NA ||| cfg.MPU_RASR_ATTR_NON_CACHEABLE |||
                       cfg.MPU_RASR_SIZE_32 ||| cfg.MPU_RASR_ENABLE
                   else s.mpu_rasr r
        else s.mpu_rasr) ∧
    (port_init cfg s).mpu_ctrl
      = (if cfg.PORT_ENABLE_GUARD_PAGES || cfg.PORT_USE_SYSCALL then
          some cfg.MPU_CTRL_PRIVDEFENA
        else s.mpu_ctrl) := by
  by_cases hm : cfg.CORTEX_MODEL = 7 <;>
  cases hg : cfg.PORT_ENABLE_GUARD_PAGES <;>
  cases hs : cfg.PORT_USE_SYSCALL <;>
  simp [port_init, port_suspend, NVIC_SetPriorityGrouping, NVIC_SetPriority,
    mpuConfigureRegion, mpuEnable, emit, hm, hg, hs]

/-- C8: for every configuration and every initial register state, running
`port_init` twice leaves the priority grouping, the SVCall and PendSV
priorities, DEMCR and the DWT control register equal to what one run leaves.
One run sets the grouping and the two priorities to their configured values
and ORs the TRCENA and CYCCNTENA masks into DEMCR and DWT CTRL, so the mask
bits are set and every other bit of those registers is preserved. -/
theorem port_init_idempotent {σ : Type} (cfg : port_config) (s : kernel σ) :
    (port_init cfg (port_init cfg s)).prigroup = (port_init cfg s).prigroup ∧
    (port_init cfg (port_init cfg s)).priority IRQn.SVCall_IRQn
      = (port_init cfg s).priority IRQn.SVCall_IRQn ∧
    (port_init cfg (port_init cfg s)).priority IRQn.PendSV_IRQn
      = (port_init cfg s).priority IRQn.PendSV_IRQn ∧
    (port_init cfg (port_init cfg s)).DEMCR = (port_init cfg s).DEMCR ∧
    (port_init cfg (port_init cfg s)).DWT_CTRL = (port_init cfg s).DWT_CTRL ∧
    (port_init cfg s).prigroup = cfg.CORTEX_PRIGROUP_INIT ∧
    (port_init cfg s).priority IRQn.SVCall_IRQn = cfg.CORTEX_PRIORITY_SVCALL ∧
    (port_init cfg s).priority IRQn.PendSV_IRQn = cfg.CORTEX_PRIORITY_PENDSV ∧
    (∀ i, (port_init cfg s).DEMCR.testBit i
      = (s.DEMCR.testBit i || cfg.CoreDebug_DEMCR_TRCENA_Msk.testBit i)) ∧
    (∀ i, (port_init cfg s).DWT_CTRL.testBit i
      = (s.DWT_CTRL.testBit i || cfg.DWT_CTRL_CYCCNTENA_Msk.testBit i)) := by
  obtain ⟨a1, a2, a3, a4, a5, -⟩ := port_init_regs cfg s
  obtain ⟨b1, b2, b3, b4, b5, -⟩ := port_init_regs cfg (port_init cfg s)
  refine ⟨by rw [b1, a1], by rw [b2, a2], by rw [b3, a3], ?_, ?_, a1, a2, a3, ?_, ?_⟩
  · rw [b4, a4, Nat.or_assoc, Nat.or_self]
  · rw [b5, a5, Nat.or_assoc, Nat.or_self]
  · intro i
    rw [a4, Nat.testBit_or]
  · intro i
    rw [a5, Nat.testBit_or]

/-- C9 as stated fails: with guard pages disabled and system calls enabled,
`port_init` still enables the protection unit. -/
theorem port_init_mpu_counterexample :
    cfg_syscall_only.PORT_ENABLE_GUARD_PAGES = false ∧
    (kernel_reset ()).mpu_ctrl = none ∧
    (port_init cfg_syscall_only (kernel_reset ())).mpu_ctrl = some 4 ∧
    (port_init cfg_syscall_only (kernel_reset ())).trace
      = [event.port_suspend, event.NVIC_SetPriorityGrouping 3,
          event.NVIC_SetPriority IRQn.SVCall_IRQn 1,
          event.NVIC_SetPriority IRQn.PendSV_IRQn 15, event.mpuEnable 4] ∧
    mpu_event (event.mpuEnable 4) = true := by
  refine ⟨rfl, rfl, rfl, rfl, rfl⟩

/-- C9, amended: `port_init` first suspends interrupts, then sets the priority
grouping and the SVCall and PendSV priorities, and only then touches the
protection unit. If guard pages are enabled it programs the guard region with
base `__main_thread_stack_base__` and attributes no-access, non-cacheable,
size 32, enabled, and afterwards enables the unit with `MPU_CTRL_PRIVDEFENA`.
If guard pages are disabled no region is programmed, but the unit is still
enabled with `MPU_CTRL_PRIVDEFENA` when system calls are enabled. Only when
both are disabled is the protection unit left untouched. -/
theorem port_init_mpu {σ : Type} (cfg : port_config) (s : kernel σ) :
    (port_init cfg s).trace
      = s.trace ++ [event.port_suspend,
          event.NVIC_SetPriorityGrouping cfg.CORTEX_PRIGROUP_INIT,
          event.NVIC_SetPriority IRQn.SVCall_IRQn cfg.CORTEX_PRIORITY_SVCALL,
          event.NVIC_SetPriority IRQn.PendSV_IRQn cfg.CORTEX_PRIORITY_PENDSV]
        ++ (if cfg.PORT_ENABLE_GUARD_PAGES then
              [event.mpuConfigureRegion cfg.PORT_USE_GUARD_MPU_REGION
                cfg.main_thread_stack_base
                (cfg.MPU_RASR_ATTR_AP_NA_NA ||| cfg.MPU_RASR_ATTR_NON_CACHEABLE |||
                  cfg.MPU_RASR_SIZE_32 ||| cfg.MPU_RASR_ENABLE)]
            else [])
        ++ (if cfg.PORT_ENABLE_GUARD_PAGES || cfg.PORT_USE_SYSCALL then
              [event.mpuEnable cfg.MPU_CTRL_PRIVDEFENA]
            else []) ∧
    (port_init cfg s).irq_suspended = true ∧
    (cfg.PORT_ENABLE_GUARD_PAGES = true →
      (port_init cfg s).mpu_rbar cfg.PORT_USE_GUARD_MPU_REGION = cfg.main_thread_stack_base ∧
      (port_init cfg s).mpu_rasr cfg.PORT_USE_GUARD_MPU_REGION
        = cfg.MPU_RASR_ATTR_AP_NA_NA ||| cfg.MPU_RASR_ATTR_NON_CACHEABLE |||
            cfg.MPU_RASR_SIZE_32 ||| cfg.MPU_RASR_ENABLE ∧
      (port_init cfg s).mpu_ctrl = some cfg.MPU_CTRL_PRIVDEFENA) ∧
    (cfg.PORT_ENABLE_GUARD_PAGES = false →
      (port_init cfg s).mpu_rbar = s.mpu_rbar ∧ (port_init cfg s).mpu_rasr = s.mpu_rasr) ∧
    (cfg.PORT_ENABLE_GUARD_PAGES = false → cfg.PORT_USE_SYSCALL = true →
      (port_init cfg s).mpu_ctrl = some cfg.MPU_CTRL_PRIVDEFENA) ∧
    (cfg.PORT_ENABLE_GUARD_PAGES = false → cfg.PORT_USE_SYSCALL = false →
      (port_init cfg s).mpu_ctrl = s.mpu_ctrl ∧
      ∀ e, e ∈ (port_init cfg s).trace → e ∈ s.trace ∨ mpu_event e = false) := by
  obtain ⟨h1, h2, h3, h4⟩ := port_init_mpu_eq cfg s
  refine ⟨h1, (port_init_regs cfg s).2.2.2.2.2, ?_, ?_, ?_, ?_⟩
  · intro hg
    rw [h2, h3, h4]
    simp [hg]
  · intro hg
    rw [h2, h3]
    simp [hg]
  · intro hg hs
    rw [h4]
    simp [hs]
  · intro hg hs
    rw [h4, h1]
    refine ⟨by simp [hg, hs], ?_⟩
    intro e he
    simp only [hg, hs, Bool.or_self, Bool.false_eq_true, if_false, List.append_nil,
      List.mem_append, List.mem_cons, List.mem_singleton, List.not_mem_nil, or_false] at he
    rcases he with he | rfl | rfl | rfl | rfl
    · exact Or.inl he
    all_goals exact Or.inr rfl

end ChibiOS
